import Mathlib

/-!
Verification development for the community-health-center-search repository.

The geospatial search-and-rank pipeline lives in `frontend/src/App.tsx`
(`handleSearch`), postal-code resolution in `frontend/src/utils/geocoding.ts`
(`geocodeZipcode` / `getZipcodeFallback`), CSV record filtering in
`frontend/src/utils/csvLoader.ts` (`loadHealthCenters`), and the services
display precedence in the detail and list components.  These are shallowly
embedded below: JavaScript numbers are modelled as `ℚ` (the great-circle
distance formula, whose implementation file is absent from the source tree,
is modelled separately over `ℝ` from the specification), strings as `String`
with `""` standing for a missing/empty field (both are falsy in JavaScript,
and the CSV loader maps missing cells to `""`), and the asynchronous remote
geocoding call as an explicit oracle parameter describing its outcome.
-/

namespace CHCS

/-- One facility row, after CSV parsing (`frontend/src/types.ts`,
`HealthCenter`).  Fields not read by any embedded function (addresses, phone,
website, enrichment metadata) are omitted; `latitude`/`longitude` are the
numeric coordinates (the CSV loader turns unparsable cells into `0`), the
five `has_*` booleans are the capability flags parsed from the CSV, and
`types` / `openai_types` / `final_types` / `all_services` are the raw
service-type text fields at their successive enrichment stages. -/
structure HealthCenter where
  name : String
  types : String
  latitude : ℚ
  longitude : ℚ
  has_primary_care : Bool
  has_dental_care : Bool
  has_vision : Bool
  has_behavioral_health : Bool
  has_pharmacy : Bool
  all_services : String
  openai_types : String
  final_types : String
deriving DecidableEq, Repr

/-- A record paired with the distance computed for the current search
(the `{...center, distance}` spread in `handleSearch`). -/
structure RankedCenter where
  center : HealthCenter
  distance : ℚ
deriving DecidableEq, Repr

/-- `ZipcodeLocation` from `frontend/src/types.ts`: the resolver's output. -/
structure ZipcodeLocation where
  zipcode : String
  latitude : ℚ
  longitude : ℚ
  city : Option String
  state : Option String
deriving DecidableEq, Repr

/-- The five service-type filter checkboxes feeding `handleSearch`
(`filterPrimaryCare` .. `filterPharmacy` in `App.tsx`). -/
structure ServiceFilters where
  primaryCare : Bool
  dentalCare : Bool
  vision : Bool
  behavioralHealth : Bool
  pharmacy : Bool
deriving DecidableEq, Repr

/-! ### Stable sort by a rational key

`Array.prototype.sort` with comparator `(a, b) => (a.distance || 0) - (b.distance || 0)`
is a stable sort ordered by the `distance` key (`|| 0` only replaces `0` by
itself here, since every element of the sorted list carries a computed
distance, and `ℚ` has no `NaN`).  We model it as an insertion sort,
processing the list head first and inserting each element `a` before the
first element `b` with `key a ≤ key b`; this preserves the relative order
of equal keys. -/

/-- Insert `a` into `l` before the first element `b` with `key a ≤ key b`. -/
def insertByKey {α : Type} (key : α → ℚ) (a : α) : List α → List α
  | [] => [a]
  | b :: l => if key a ≤ key b then a :: b :: l else b :: insertByKey key a l

/-- Stable insertion sort by a rational-valued key. -/
def sortByKey {α : Type} (key : α → ℚ) : List α → List α
  | [] => []
  | a :: l => insertByKey key a (sortByKey key l)

theorem mem_insertByKey {α : Type} (key : α → ℚ) (a x : α) :
    ∀ l : List α, x ∈ insertByKey key a l ↔ x = a ∨ x ∈ l := by
  intro l
  induction l with
  | nil => simp [insertByKey]
  | cons b l ih =>
    by_cases h : key a ≤ key b
    · simp [insertByKey, h]
    · simp only [insertByKey, if_neg h, List.mem_cons, ih]
      tauto

theorem perm_insertByKey {α : Type} (key : α → ℚ) (a : α) :
    ∀ l : List α, (insertByKey key a l).Perm (a :: l) := by
  intro l
  induction l with
  | nil => simp [insertByKey]
  | cons b l ih =>
    by_cases h : key a ≤ key b
    · simp [insertByKey, h]
    · simp only [insertByKey, if_neg h]
      exact List.Perm.trans (List.Perm.cons b ih) (List.Perm.swap a b l)

theorem perm_sortByKey {α : Type} (key : α → ℚ) :
    ∀ l : List α, (sortByKey key l).Perm l := by
  intro l
  induction l with
  | nil => simp [sortByKey]
  | cons a l ih =>
    exact List.Perm.trans (perm_insertByKey key a (sortByKey key l))
      (List.Perm.cons a ih)

theorem pairwise_insertByKey {α : Type} (key : α → ℚ) (a : α) :
    ∀ l : List α, l.Pairwise (fun x y => key x ≤ key y) →
      (insertByKey key a l).Pairwise (fun x y => key x ≤ key y) := by
  intro l
  induction l with
  | nil => simp [insertByKey]
  | cons b l ih =>
    intro hp
    rcases List.pairwise_cons.mp hp with ⟨hb, hl⟩
    by_cases h : key a ≤ key b
    · simp only [insertByKey, if_pos h]
      refine List.pairwise_cons.mpr ⟨?_, hp⟩
      intro x hx
      rcases List.mem_cons.mp hx with rfl | hx
      · exact h
      · exact le_trans h (hb x hx)
    · simp only [insertByKey, if_neg h]
      refine List.pairwise_cons.mpr ⟨?_, ih hl⟩
      intro x hx
      rcases (mem_insertByKey key a x l).mp hx with rfl | hx
      · exact le_of_lt (lt_of_not_le h)
      · exact hb x hx

theorem pairwise_sortByKey {α : Type} (key : α → ℚ) :
    ∀ l : List α, (sortByKey key l).Pairwise (fun x y => key x ≤ key y) := by
  intro l
  induction l with
  | nil => simp [sortByKey]
  | cons a l ih => exact pairwise_insertByKey key a (sortByKey key l) ih

theorem filter_insertByKey {α : Type} (key : α → ℚ) (a : α) (d : ℚ) :
    ∀ l : List α,
      (insertByKey key a l).filter (fun x => key x == d) =
        if key a == d then a :: l.filter (fun x => key x == d)
        else l.filter (fun x => key x == d) := by
  intro l
  induction l with
  | nil =>
    by_cases hd : key a = d
    · simp [insertByKey, List.filter_cons, beq_iff_eq, hd]
    · simp [insertByKey, List.filter_cons, beq_iff_eq, hd]
  | cons b l ih =>
    by_cases h : key a ≤ key b
    · rw [insertByKey, if_pos h]
      by_cases hd : key a = d
      · simp [List.filter_cons, beq_iff_eq, hd]
      · simp [List.filter_cons, beq_iff_eq, hd]
    · rw [insertByKey, if_neg h]
      have hba : key b < key a := lt_of_not_le h
      rw [List.filter_cons, ih]
      by_cases hd : key a = d
      · have hbd : ¬ key b = d := by
          intro hb
          exact absurd (hb.trans hd.symm) (ne_of_lt hba)
        simp [List.filter_cons, beq_iff_eq, hd, hbd]
      · by_cases hbd : key b = d
        · simp [List.filter_cons, beq_iff_eq, hd, hbd]
        · simp [List.filter_cons, beq_iff_eq, hd, hbd]

theorem filter_sortByKey {α : Type} (key : α → ℚ) (d : ℚ) :
    ∀ l : List α,
      (sortByKey key l).filter (fun x => key x == d) =
        l.filter (fun x => key x == d) := by
  intro l
  induction l with
  | nil => simp [sortByKey]
  | cons a l ih =>
    rw [sortByKey, filter_insertByKey, List.filter_cons]
    by_cases hd : key a = d
    · simp [beq_iff_eq, hd, ih]
    · simp [beq_iff_eq, hd, ih]

/-! ### Postal-code resolution (`frontend/src/utils/geocoding.ts`)

`geocodeZipcode` strips non-digits, rejects inputs that do not reduce to
exactly five digits, then tries the remote Nominatim lookup; when the fetch
throws, the response is not ok, or the result array is empty, it falls
through to `getZipcodeFallback` (static table, then the `021` Boston-area
heuristic), and returns `null` only when every tier fails.  The remote call
is modelled as an oracle `remote : String → RemoteOutcome` supplied per
invocation. -/

/-- `zipcode.replace(/\D/g, '')`: keep only the decimal digits. -/
def stripNonDigits (s : String) : String :=
  String.mk (s.data.filter Char.isDigit)

/-- One entry of the Nominatim JSON result array, reduced to the fields the
resolver reads (`lat`, `lon`, the locality picked from
`address?.city || address?.town || address?.village`, and `address?.state`). -/
structure RemoteResult where
  lat : ℚ
  lon : ℚ
  city : Option String
  state : Option String
deriving DecidableEq, Repr

/-- Outcome of the remote geocoding fetch: the fetch (or JSON parsing)
threw, the HTTP response was not ok, or it succeeded with a result array. -/
inductive RemoteOutcome where
  | throws : RemoteOutcome
  | notOk : RemoteOutcome
  | ok : List RemoteResult → RemoteOutcome
deriving DecidableEq, Repr

/-- One row of the hardcoded `commonZipcodes` table in `getZipcodeFallback`. -/
structure FallbackEntry where
  lat : ℚ
  lng : ℚ
  city : String
deriving DecidableEq, Repr

/-- The `commonZipcodes` table: approximate centroids for common MA
zipcodes, exactly as hardcoded in `getZipcodeFallback`. -/
def commonZipcodes : List (String × FallbackEntry) :=
  [ ("02138", ⟨42.3736, -71.1190, "Cambridge"⟩),
    ("02139", ⟨42.3656, -71.1040, "Cambridge"⟩),
    ("02140", ⟨42.3916, -71.1230, "Cambridge"⟩),
    ("02141", ⟨42.3731, -71.0854, "Cambridge"⟩),
    ("02118", ⟨42.3389, -71.0736, "Boston"⟩),
    ("02115", ⟨42.3429, -71.1000, "Boston"⟩),
    ("02116", ⟨42.3500, -71.0800, "Boston"⟩),
    ("01420", ⟨42.5806, -71.7939, "Fitchburg"⟩),
    ("02148", ⟨42.4199, -71.0728, "Malden"⟩),
    ("02145", ⟨42.3921, -71.0930, "Somerville"⟩) ]

/-- `getZipcodeFallback`: table lookup, then the `021` Boston-area
heuristic (`zipcode.substring(0, 3) === '021'`), else `null`. -/
def getZipcodeFallback (zipcode : String) : Option ZipcodeLocation :=
  match commonZipcodes.lookup zipcode with
  | some e => some ⟨zipcode, e.lat, e.lng, some e.city, some "MA"⟩
  | none =>
    if zipcode.take 3 = "021" then
      some ⟨zipcode, 42.3601, -71.0589, some "Boston Area", some "MA"⟩
    else
      none

/-- `geocodeZipcode`, with the remote fetch abstracted as `remote`.  The
format check (`cleanZip.length !== 5`) returns `null` before any remote
call; a successful remote lookup with a nonempty result array wins;
every other remote outcome falls through to `getZipcodeFallback`. -/
def geocodeZipcode (remote : String → RemoteOutcome) (zipcode : String) :
    Option ZipcodeLocation :=
  if (stripNonDigits zipcode).length ≠ 5 then
    none
  else
    match remote (stripNonDigits zipcode) with
    | RemoteOutcome.ok (r :: _) =>
      some ⟨stripNonDigits zipcode, r.lat, r.lon, r.city, r.state⟩
    | _ => getZipcodeFallback (stripNonDigits zipcode)

/-- The remote tier failed: the fetch threw, the response was not ok, or
the result array was empty (`data.length === 0`). -/
def remoteFails (o : RemoteOutcome) : Prop :=
  o = RemoteOutcome.throws ∨ o = RemoteOutcome.notOk ∨ o = RemoteOutcome.ok []

/-! ### The search pipeline (`handleSearch` in `frontend/src/App.tsx`)

`handleSearch` filters the loaded centers to those with truthy coordinates,
maps each to a copy carrying `calculateDistance(location, center)`, keeps
the ones with `distance <= radius`, sorts ascending by distance, and — when
at least one service-type checkbox is on — keeps a record when it has no
service-type text at all or matches at least one selected filter.  The
distance function is a parameter `dist` (its implementation file is not part
of the embedded code; the pipeline properties hold for every `dist`). -/

/-- `center.latitude && center.longitude`: numeric truthiness, so a record
with a `0` coordinate fails the check. -/
def hasValidCoords (c : HealthCenter) : Bool :=
  c.latitude != 0 && c.longitude != 0

/-- `filterPrimaryCare || filterDentalCare || filterVision || filterBehavioralHealth || filterPharmacy`. -/
def hasAnyFilter (f : ServiceFilters) : Bool :=
  f.primaryCare || f.dentalCare || f.vision || f.behavioralHealth || f.pharmacy

/-- `!center.all_services && !center.final_types && !center.openai_types && !center.types`:
every service-text field is empty/missing. -/
def hasNoServiceData (c : HealthCenter) : Bool :=
  c.all_services == "" && c.final_types == "" && c.openai_types == "" && c.types == ""

/-- The `matches.length > 0` test: at least one enabled filter whose
capability flag the record carries. -/
def matchesAnyFilter (f : ServiceFilters) (c : HealthCenter) : Bool :=
  (f.primaryCare && c.has_primary_care) ||
  (f.dentalCare && c.has_dental_care) ||
  (f.vision && c.has_vision) ||
  (f.behavioralHealth && c.has_behavioral_health) ||
  (f.pharmacy && c.has_pharmacy)

/-- The service-filter predicate applied to each distance-filtered record:
records with no service data always pass, others pass when they match a
selected filter. -/
def servicePass (f : ServiceFilters) (c : HealthCenter) : Bool :=
  hasNoServiceData c || matchesAnyFilter f c

/-- The pipeline before sorting, in input order: valid-coordinate filter,
distance computation, inclusive radius filter. -/
def withinRadiusStage (dist : ℚ → ℚ → ℚ → ℚ → ℚ) (loc : ZipcodeLocation)
    (radius : ℚ) (centers : List HealthCenter) : List RankedCenter :=
  ((centers.filter hasValidCoords).map
      (fun c => ⟨c, dist loc.latitude loc.longitude c.latitude c.longitude⟩)).filter
    (fun rc => decide (rc.distance ≤ radius))

/-- `centersWithDistance` in `handleSearch`: the radius-filtered records,
sorted ascending by distance with the stable comparator sort. -/
def centersWithDistance (dist : ℚ → ℚ → ℚ → ℚ → ℚ) (loc : ZipcodeLocation)
    (radius : ℚ) (centers : List HealthCenter) : List RankedCenter :=
  sortByKey (fun rc => rc.distance) (withinRadiusStage dist loc radius centers)

/-- `finalFiltered` in `handleSearch`: apply the service-type filter to the
sorted, radius-filtered records only when at least one filter is on. -/
def handleSearch (dist : ℚ → ℚ → ℚ → ℚ → ℚ) (loc : ZipcodeLocation)
    (radius : ℚ) (f : ServiceFilters) (centers : List HealthCenter) :
    List RankedCenter :=
  if hasAnyFilter f then
    (centersWithDistance dist loc radius centers).filter
      (fun rc => servicePass f rc.center)
  else
    centersWithDistance dist loc radius centers

/-- The same final record set in input order (no sort): used to state the
stability of the result ordering. -/
def inputOrderResults (dist : ℚ → ℚ → ℚ → ℚ → ℚ) (loc : ZipcodeLocation)
    (radius : ℚ) (f : ServiceFilters) (centers : List HealthCenter) :
    List RankedCenter :=
  if hasAnyFilter f then
    (withinRadiusStage dist loc radius centers).filter
      (fun rc => servicePass f rc.center)
  else
    withinRadiusStage dist loc radius centers

/-- The filters object with every checkbox off. -/
def noFilters : ServiceFilters := ⟨false, false, false, false, false⟩

/-! ### CSV row filtering (`frontend/src/utils/csvLoader.ts`)

After parsing, `loadHealthCenters` keeps only rows satisfying
`center.latitude && center.longitude && center.latitude !== 0 && center.longitude !== 0`
(the two `!== 0` conjuncts restate the numeric-truthiness ones). -/

/-- The `complete`-callback row filter of `loadHealthCenters`. -/
def csvKeptCenters (rows : List HealthCenter) : List HealthCenter :=
  rows.filter (fun c =>
    c.latitude != 0 && c.longitude != 0 && c.latitude != 0 && c.longitude != 0)

/-! ### Services display precedence

Both the detail view (`displayTypes` in `HealthCenterDetail`) and the list
cards (`HealthCenterList`) compute the displayed services string as
`center.all_services || center.final_types || center.openai_types || center.types`. -/

/-- `displayTypes` in the detail component: first truthy (non-empty) field
among `all_services`, `final_types`, `openai_types`, `types`. -/
def displayTypesDetail (c : HealthCenter) : String :=
  if c.all_services ≠ "" then c.all_services
  else if c.final_types ≠ "" then c.final_types
  else if c.openai_types ≠ "" then c.openai_types
  else c.types

/-- The services string rendered by the list cards, same `||` chain. -/
def displayTypesList (c : HealthCenter) : String :=
  if c.all_services ≠ "" then c.all_services
  else if c.final_types ≠ "" then c.final_types
  else if c.openai_types ≠ "" then c.openai_types
  else c.types

/-- Modelled from the spec, for the refinement comparison with the code's
display chain: "prefer a manually-curated field if non-empty; else an
AI-enriched field if non-empty; else the original source field"
(`resolvePreferredText(curated, enriched, original)` in §4.3). -/
def resolvePreferredTextSpec (curated enriched original : String) : String :=
  if curated ≠ "" then curated
  else if enriched ≠ "" then enriched
  else original

/-! ### Great-circle distance (spec §4.2)

The repository imports `calculateDistance` from `utils/distance.ts`, but that
file is not part of the source tree (only its callers and README mentions
are).  It is therefore modelled from the specification, over `ℝ`. -/

/-- A latitude/longitude pair in degrees (spec §3, `GeoPoint`). -/
structure GeoPoint where
  latitude : ℝ
  longitude : ℝ

/-- Degrees to radians. -/
noncomputable def toRadians (deg : ℝ) : ℝ := deg * Real.pi / 180

/-- Modelled from the spec: the haversine intermediate
`h = sin²(Δlat/2) + cos(lat1)·cos(lat2)·sin²(Δlon/2)` of §4.2, with the
inputs converted from degrees to radians (`utils/distance.ts` is absent
from the source tree). -/
noncomputable def haversineH (a b : GeoPoint) : ℝ :=
  Real.sin (toRadians (b.latitude - a.latitude) / 2) ^ 2 +
    Real.cos (toRadians a.latitude) * Real.cos (toRadians b.latitude) *
      Real.sin (toRadians (b.longitude - a.longitude) / 2) ^ 2

/-- Modelled from the spec: `distance = 2 · R · asin(√h)` with Earth radius
`R = 3958.8` miles (§4.2; `utils/distance.ts` is absent from the source
tree). -/
noncomputable def calculateDistance (a b : GeoPoint) : ℝ :=
  2 * 3958.8 * Real.arcsin (Real.sqrt (haversineH a b))

theorem haversineH_symm (a b : GeoPoint) : haversineH a b = haversineH b a := by
  unfold haversineH toRadians
  have s : ∀ x : ℝ, Real.sin x ^ 2 = Real.sin (-x) ^ 2 := by
    intro x
    rw [Real.sin_neg]
    ring
  rw [s ((b.latitude - a.latitude) * Real.pi / 180 / 2),
    s ((b.longitude - a.longitude) * Real.pi / 180 / 2),
    show -((b.latitude - a.latitude) * Real.pi / 180 / 2) =
      (a.latitude - b.latitude) * Real.pi / 180 / 2 by ring,
    show -((b.longitude - a.longitude) * Real.pi / 180 / 2) =
      (a.longitude - b.longitude) * Real.pi / 180 / 2 by ring]
  ring

theorem haversineH_self (a : GeoPoint) : haversineH a a = 0 := by
  unfold haversineH toRadians
  simp

theorem calculateDistance_self (a : GeoPoint) : calculateDistance a a = 0 := by
  unfold calculateDistance
  rw [haversineH_self, Real.sqrt_zero, Real.arcsin_zero, mul_zero]

/-! ### Helper lemmas about the pipeline -/

theorem filter_swap {α : Type} (p q : α → Bool) :
    ∀ l : List α, (l.filter p).filter q = (l.filter q).filter p := by
  intro l
  induction l with
  | nil => rfl
  | cons a l ih =>
    by_cases hp : p a = true <;> by_cases hq : q a = true <;>
      simp [List.filter_cons, hp, hq, ih]

theorem mem_handleSearch_valid (dist : ℚ → ℚ → ℚ → ℚ → ℚ)
    (loc : ZipcodeLocation) (radius : ℚ) (f : ServiceFilters)
    (centers : List HealthCenter) (rc : RankedCenter)
    (h : rc ∈ handleSearch dist loc radius f centers) :
    hasValidCoords rc.center = true := by
  have h1 : rc ∈ centersWithDistance dist loc radius centers := by
    unfold handleSearch at h
    split at h
    · exact (List.mem_filter.mp h).1
    · exact h
  unfold centersWithDistance at h1
  have h2 : rc ∈ withinRadiusStage dist loc radius centers :=
    ((perm_sortByKey (fun rc : RankedCenter => rc.distance)
      (withinRadiusStage dist loc radius centers)).mem_iff).mp h1
  unfold withinRadiusStage at h2
  have h3 := (List.mem_filter.mp h2).1
  rcases List.mem_map.mp h3 with ⟨c, hc, rfl⟩
  exact (List.mem_filter.mp hc).2

theorem mem_search_noFilters_iff (dist : ℚ → ℚ → ℚ → ℚ → ℚ)
    (loc : ZipcodeLocation) (radius : ℚ) (centers : List HealthCenter)
    (c : HealthCenter) (hc : c ∈ centers) (hv : hasValidCoords c = true) :
    (⟨c, dist loc.latitude loc.longitude c.latitude c.longitude⟩ : RankedCenter) ∈
        handleSearch dist loc radius noFilters centers ↔
      dist loc.latitude loc.longitude c.latitude c.longitude ≤ radius := by
  have hno : hasAnyFilter noFilters = false := rfl
  unfold handleSearch
  rw [hno]
  simp only [Bool.false_eq_true, if_false]
  unfold centersWithDistance
  rw [(perm_sortByKey (fun rc : RankedCenter => rc.distance)
    (withinRadiusStage dist loc radius centers)).mem_iff]
  unfold withinRadiusStage
  simp only [List.mem_filter, decide_eq_true_eq]
  constructor
  · rintro ⟨-, hle⟩
    exact hle
  · intro hle
    exact ⟨List.mem_map_of_mem _ (List.mem_filter.mpr ⟨hc, hv⟩), hle⟩

/-! ### Concrete fixtures used by the witness theorems -/

/-- A distance function ignoring its arguments; the pipeline theorems hold
for every distance function, and the witnesses instantiate it concretely. -/
def constDist (q : ℚ) : ℚ → ℚ → ℚ → ℚ → ℚ := fun _ _ _ _ => q

/-- A resolved search location fixture. -/
def toyLoc : ZipcodeLocation := ⟨"02138", 0, 0, none, none⟩

/-- A record offering dental care, with service-type text present. -/
def recDental : HealthCenter :=
  ⟨"A", "Dental Care", 1, 2, false, true, false, false, false, "", "", ""⟩

/-- A record with no service-type text under any precedence tier. -/
def recNoData : HealthCenter :=
  ⟨"B", "", 3, 4, false, false, false, false, false, "", "", ""⟩

/-- A record on the equator: latitude exactly 0, longitude valid. -/
def recZeroLat : HealthCenter :=
  ⟨"C", "", 0, 5, true, false, false, false, false, "", "", ""⟩

/-! ### Claim theorems -/

/-- C1: with a non-empty set of requested capability flags, a record that
has service-type data is kept by the search if and only if at least one of
its capability flags among the requested set is true — a logical OR across
the selected filters, never an AND. -/
theorem capability_filter_or_semantics (dist : ℚ → ℚ → ℚ → ℚ → ℚ)
    (loc : ZipcodeLocation) (radius : ℚ) (f : ServiceFilters)
    (centers : List HealthCenter) (rc : RankedCenter)
    (hf : hasAnyFilter f = true) (hs : hasNoServiceData rc.center = false) :
    rc ∈ handleSearch dist loc radius f centers ↔
      rc ∈ centersWithDistance dist loc radius centers ∧
        ((f.primaryCare = true ∧ rc.center.has_primary_care = true) ∨
         (f.dentalCare = true ∧ rc.center.has_dental_care = true) ∨
         (f.vision = true ∧ rc.center.has_vision = true) ∨
         (f.behavioralHealth = true ∧ rc.center.has_behavioral_health = true) ∨
         (f.pharmacy = true ∧ rc.center.has_pharmacy = true)) := by
  unfold handleSearch
  rw [hf]
  simp only [if_true, List.mem_filter, servicePass, hs, Bool.false_or,
    matchesAnyFilter, Bool.or_eq_true, Bool.and_eq_true]
  tauto

/-- C1 witness: requesting dental and vision keeps a dental-only record. -/
theorem capability_filter_or_semantics_witness :
    hasAnyFilter ⟨false, true, true, false, false⟩ = true ∧
      hasNoServiceData recDental = false ∧
      ((⟨recDental, 1⟩ : RankedCenter) ∈
          handleSearch (constDist 1) toyLoc 3
            ⟨false, true, true, false, false⟩ [recDental] ↔
        (⟨recDental, 1⟩ : RankedCenter) ∈
            centersWithDistance (constDist 1) toyLoc 3 [recDental] ∧
          ((false = true ∧ recDental.has_primary_care = true) ∨
           (true = true ∧ recDental.has_dental_care = true) ∨
           (true = true ∧ recDental.has_vision = true) ∨
           (false = true ∧ recDental.has_behavioral_health = true) ∨
           (false = true ∧ recDental.has_pharmacy = true))) :=
  ⟨rfl, rfl,
    capability_filter_or_semantics (constDist 1) toyLoc 3
      ⟨false, true, true, false, false⟩ [recDental] ⟨recDental, 1⟩ rfl rfl⟩

/-- C2: a record whose service-type text is absent under every precedence
tier passes the capability filter: it is in the final results exactly when
it survives the distance stage, regardless of the requested capabilities. -/
theorem no_service_data_exempt (dist : ℚ → ℚ → ℚ → ℚ → ℚ)
    (loc : ZipcodeLocation) (radius : ℚ) (f : ServiceFilters)
    (centers : List HealthCenter) (rc : RankedCenter)
    (hs : hasNoServiceData rc.center = true) :
    rc ∈ handleSearch dist loc radius f centers ↔
      rc ∈ centersWithDistance dist loc radius centers := by
  unfold handleSearch
  split
  · simp [List.mem_filter, servicePass, hs]
  · exact Iff.rfl

/-- C2 witness: with the dental filter on, a record with no service-type
text still appears in the results. -/
theorem no_service_data_exempt_witness :
    hasNoServiceData recNoData = true ∧
      ((⟨recNoData, 1⟩ : RankedCenter) ∈
          handleSearch (constDist 1) toyLoc 3
            ⟨false, true, false, false, false⟩ [recNoData] ↔
        (⟨recNoData, 1⟩ : RankedCenter) ∈
            centersWithDistance (constDist 1) toyLoc 3 [recNoData]) ∧
      (⟨recNoData, 1⟩ : RankedCenter) ∈
        handleSearch (constDist 1) toyLoc 3
          ⟨false, true, false, false, false⟩ [recNoData] :=
  ⟨rfl,
    no_service_data_exempt (constDist 1) toyLoc 3
      ⟨false, true, false, false, false⟩ [recNoData] ⟨recNoData, 1⟩ rfl,
    (no_service_data_exempt (constDist 1) toyLoc 3
      ⟨false, true, false, false, false⟩ [recNoData] ⟨recNoData, 1⟩ rfl).mpr
      (by decide)⟩

/-- C3: for a record with coordinates present, the search keeps it exactly
when its computed distance is ≤ `radiusMiles`; the boundary is inclusive. -/
theorem radius_boundary_inclusive (dist : ℚ → ℚ → ℚ → ℚ → ℚ)
    (loc : ZipcodeLocation) (radius : ℚ) (centers : List HealthCenter)
    (c : HealthCenter) (hc : c ∈ centers) (hv : hasValidCoords c = true) :
    (⟨c, dist loc.latitude loc.longitude c.latitude c.longitude⟩ : RankedCenter) ∈
        handleSearch dist loc radius noFilters centers ↔
      dist loc.latitude loc.longitude c.latitude c.longitude ≤ radius :=
  mem_search_noFilters_iff dist loc radius centers c hc hv

/-- C3 witness: a record at distance exactly equal to the radius is kept. -/
theorem radius_boundary_inclusive_witness :
    recDental ∈ [recDental] ∧ hasValidCoords recDental = true ∧
      (((⟨recDental, 5⟩ : RankedCenter) ∈
          handleSearch (constDist 5) toyLoc 5 noFilters [recDental]) ↔
        (5 : ℚ) ≤ 5) ∧
      (⟨recDental, 5⟩ : RankedCenter) ∈
        handleSearch (constDist 5) toyLoc 5 noFilters [recDental] :=
  ⟨by decide, rfl,
    radius_boundary_inclusive (constDist 5) toyLoc 5 [recDental] recDental
      (by decide) rfl,
    (radius_boundary_inclusive (constDist 5) toyLoc 5 [recDental] recDental
      (by decide) rfl).mpr le_rfl⟩

/-- C4: the returned results are sorted ascending by computed distance,
and for each distance value the results carrying it appear in the same
relative order as in the input records array (stable sort, no secondary
key); determinism over repeated runs is immediate since `handleSearch` is
a pure function of its arguments. -/
theorem search_sorted_and_stable (dist : ℚ → ℚ → ℚ → ℚ → ℚ)
    (loc : ZipcodeLocation) (radius : ℚ) (f : ServiceFilters)
    (centers : List HealthCenter) :
    (handleSearch dist loc radius f centers).Pairwise
        (fun x y => x.distance ≤ y.distance) ∧
      ∀ d : ℚ,
        (handleSearch dist loc radius f centers).filter
            (fun rc => rc.distance == d) =
          (inputOrderResults dist loc radius f centers).filter
            (fun rc => rc.distance == d) := by
  constructor
  · unfold handleSearch centersWithDistance
    split
    · exact List.Pairwise.sublist (List.filter_sublist _)
        (pairwise_sortByKey (fun rc : RankedCenter => rc.distance) _)
    · exact pairwise_sortByKey (fun rc : RankedCenter => rc.distance) _
  · intro d
    unfold handleSearch inputOrderResults centersWithDistance
    split
    · rw [filter_swap,
        filter_sortByKey (fun rc : RankedCenter => rc.distance) d,
        filter_swap]
    · exact filter_sortByKey (fun rc : RankedCenter => rc.distance) d _

/-- C5 counterexample: the spreadsheet artifact "02138.0" does not
normalize to "02138" — stripping non-digits leaves the six digits
"021380", so the resolver rejects the input at the format gate. -/
theorem spreadsheet_artifact_rejected :
    stripNonDigits "02138.0" = "021380" ∧
      geocodeZipcode (fun _ => RemoteOutcome.throws) "02138.0" = none := by
  constructor
  · decide
  · decide

/-- C5 amended: the resolver strips all non-digit characters and rejects
at the format gate exactly when the remaining digit count is not 5 —
rejection happens before and independently of the remote lookup, and with
five digits a successful remote lookup succeeds.  An input with a trailing
".0" artifact strips to six digits and is therefore rejected, not
accepted. -/
theorem format_gate_exact (remote : String → RemoteOutcome) (z : String) :
    ((stripNonDigits z).length ≠ 5 → geocodeZipcode remote z = none) ∧
      ((stripNonDigits z).length = 5 →
        geocodeZipcode (fun _ => RemoteOutcome.ok [⟨42, -71, none, none⟩]) z =
          some ⟨stripNonDigits z, 42, -71, none, none⟩) := by
  constructor
  · intro h
    unfold geocodeZipcode
    rw [if_pos h]
  · intro h
    unfold geocodeZipcode
    rw [if_neg (by simp [h])]

/-- C5 amended witness: "02138.0" is rejected with any remote outcome;
a genuine 5-digit input passes the format gate. -/
theorem format_gate_exact_witness :
    geocodeZipcode (fun _ => RemoteOutcome.notOk) "02138.0" = none ∧
      geocodeZipcode (fun _ => RemoteOutcome.ok [⟨42, -71, none, none⟩])
          "99999" = some ⟨"99999", 42, -71, none, none⟩ :=
  ⟨(format_gate_exact (fun _ => RemoteOutcome.notOk) "02138.0").1 (by decide),
    (format_gate_exact (fun _ => RemoteOutcome.notOk) "99999").2 (by decide)⟩

/-- C6: for every 5-digit postal code present in the static fallback
table, the resolver never fails: whenever the remote lookup throws,
returns a non-ok response, or returns zero results, it returns the table
entry's coordinates, locality name and the fixed region code "MA". -/
theorem fallback_table_resolves (remote : String → RemoteOutcome)
    (z : String) (e : FallbackEntry)
    (hclean : stripNonDigits z = z) (hlen : z.length = 5)
    (htab : commonZipcodes.lookup z = some e)
    (hrem : remoteFails (remote z)) :
    geocodeZipcode remote z =
      some ⟨z, e.lat, e.lng, some e.city, some "MA"⟩ := by
  unfold geocodeZipcode
  rw [hclean, hlen]
  rcases hrem with h | h | h <;>
    · rw [h]
      simp [getZipcodeFallback, htab]

/-- C6 witness: "02138" resolves from the table when the remote call
throws, is not ok, or returns zero results. -/
theorem fallback_table_resolves_witness :
    geocodeZipcode (fun _ => RemoteOutcome.throws) "02138" =
        some ⟨"02138", 42.3736, -71.1190, some "Cambridge", some "MA"⟩ ∧
      geocodeZipcode (fun _ => RemoteOutcome.notOk) "02138" =
        some ⟨"02138", 42.3736, -71.1190, some "Cambridge", some "MA"⟩ ∧
      geocodeZipcode (fun _ => RemoteOutcome.ok []) "02138" =
        some ⟨"02138", 42.3736, -71.1190, some "Cambridge", some "MA"⟩ :=
  ⟨fallback_table_resolves (fun _ => RemoteOutcome.throws) "02138"
      ⟨42.3736, -71.1190, "Cambridge"⟩ (by decide) (by decide) rfl
      (Or.inl rfl),
    fallback_table_resolves (fun _ => RemoteOutcome.notOk) "02138"
      ⟨42.3736, -71.1190, "Cambridge"⟩ (by decide) (by decide) rfl
      (Or.inr (Or.inl rfl)),
    fallback_table_resolves (fun _ => RemoteOutcome.ok []) "02138"
      ⟨42.3736, -71.1190, "Cambridge"⟩ (by decide) (by decide) rfl
      (Or.inr (Or.inr rfl))⟩

/-- C7 counterexample: with the non-positive radius 0 the engine does not
fail fast — it proceeds through the pipeline and returns an ordinary
result list (here even a non-empty one, the record at distance 0). -/
theorem nonpositive_radius_returns_results :
    (0 : ℚ) ≤ 0 ∧
      handleSearch (constDist 0) toyLoc 0 noFilters [recDental] =
        [⟨recDental, 0⟩] := by
  constructor
  · exact le_rfl
  · decide

/-- C7 amended: the engine performs no radius validation; for a
non-positive radius it proceeds normally, returning exactly the
valid-coordinate records whose computed distance is ≤ the radius
(typically an empty list, or records at distance 0 when the radius is 0) —
no exception or error return. -/
theorem nonpositive_radius_proceeds (dist : ℚ → ℚ → ℚ → ℚ → ℚ)
    (loc : ZipcodeLocation) (radius : ℚ) (centers : List HealthCenter)
    (c : HealthCenter) (_hr : radius ≤ 0) (hc : c ∈ centers)
    (hv : hasValidCoords c = true) :
    (⟨c, dist loc.latitude loc.longitude c.latitude c.longitude⟩ : RankedCenter) ∈
        handleSearch dist loc radius noFilters centers ↔
      dist loc.latitude loc.longitude c.latitude c.longitude ≤ radius :=
  mem_search_noFilters_iff dist loc radius centers c hc hv

/-- C7 amended witness: at radius 0 the record at distance 0 is returned. -/
theorem nonpositive_radius_proceeds_witness :
    (0 : ℚ) ≤ 0 ∧ recDental ∈ [recDental] ∧ hasValidCoords recDental = true ∧
      ((⟨recDental, 0⟩ : RankedCenter) ∈
          handleSearch (constDist 0) toyLoc 0 noFilters [recDental] ↔
        (0 : ℚ) ≤ 0) :=
  ⟨le_rfl, by decide, rfl,
    nonpositive_radius_proceeds (constDist 0) toyLoc 0 [recDental] recDental
      le_rfl (by decide) rfl⟩

/-- A record whose aggregated `all_services` display field and curated
`final_types` field carry different non-empty strings. -/
def recAllServices : HealthCenter :=
  ⟨"D", "Original Types", 1, 2, true, false, false, false, false,
    "All Services List", "AI Types", "Curated Types"⟩

/-- A record with `all_services` empty but curated and enriched fields set. -/
def recCurated : HealthCenter :=
  ⟨"E", "Original Types", 1, 2, true, false, false, false, false,
    "", "AI Types", "Curated Types"⟩

/-- C8 counterexample: the displayed services string is not the
curated-else-enriched-else-original precedence — when the aggregated
`all_services` field is non-empty it wins over the curated field. -/
theorem display_precedence_counterexample :
    displayTypesDetail recAllServices = "All Services List" ∧
      resolvePreferredTextSpec recAllServices.final_types
          recAllServices.openai_types recAllServices.types = "Curated Types" ∧
      displayTypesDetail recAllServices ≠
        resolvePreferredTextSpec recAllServices.final_types
          recAllServices.openai_types recAllServices.types := by
  refine ⟨by decide, by decide, by decide⟩

/-- C8 amended: the detail and list components display the same services
string, resolved by a four-tier precedence: the aggregated `all_services`
field if non-empty; else the manually-curated `final_types` if non-empty;
else the AI-enriched `openai_types` if non-empty; else the original
`types`.  Only when `all_services` is empty does this coincide with the
spec's three-tier curated/enriched/original precedence. -/
theorem display_precedence_amended (c : HealthCenter) :
    displayTypesDetail c = displayTypesList c ∧
      (c.all_services = "" →
        displayTypesDetail c =
          resolvePreferredTextSpec c.final_types c.openai_types c.types) ∧
      (c.all_services ≠ "" → displayTypesDetail c = c.all_services) := by
  refine ⟨rfl, ?_, ?_⟩
  · intro h
    simp [displayTypesDetail, resolvePreferredTextSpec, h]
  · intro h
    simp [displayTypesDetail, h]

/-- C8 amended witness: with `all_services` empty the display string is
the curated field, matching the spec helper; with it non-empty it is the
aggregated field. -/
theorem display_precedence_amended_witness :
    displayTypesDetail recCurated = displayTypesList recCurated ∧
      displayTypesDetail recCurated =
        resolvePreferredTextSpec recCurated.final_types
          recCurated.openai_types recCurated.types ∧
      displayTypesDetail recAllServices = recAllServices.all_services :=
  ⟨(display_precedence_amended recCurated).1,
    (display_precedence_amended recCurated).2.1 rfl,
    (display_precedence_amended recAllServices).2.2 (by decide)⟩

/-- C9 counterexample: the haversine distance of two distinct coordinate
pairs can be zero — both points at latitude 90 (the north pole) with
different longitudes have distance 0 although they are not equal as
latitude/longitude pairs (within any tolerance: the longitudes differ
by 100 degrees). -/
theorem distance_zero_at_pole :
    calculateDistance ⟨90, 0⟩ ⟨90, 100⟩ = 0 ∧
      (GeoPoint.mk 90 0).longitude ≠ (GeoPoint.mk 90 100).longitude := by
  constructor
  · unfold calculateDistance haversineH toRadians
    simp only [show ((90 : ℝ) - 90) = 0 by norm_num,
      show (90 : ℝ) * Real.pi / 180 = Real.pi / 2 by ring,
      Real.cos_pi_div_two]
    simp [Real.arcsin_zero]
  · simp only [ne_eq]
    norm_num

/-- C9 amended: the spec-modelled haversine distance is symmetric, and the
distance from any point to itself is 0; but zero distance does not imply
the two coordinate pairs are equal (see the pole counterexample). -/
theorem distance_symm_self (a b : GeoPoint) :
    calculateDistance a b = calculateDistance b a ∧
      calculateDistance a a = 0 := by
  constructor
  · unfold calculateDistance
    rw [haversineH_symm]
  · exact calculateDistance_self a

/-- C10: the coordinate-presence checks use numeric truthiness, so a
record whose latitude or longitude is exactly 0 never appears in search
results and is dropped by the CSV loader's row filter. -/
theorem zero_coordinate_excluded (dist : ℚ → ℚ → ℚ → ℚ → ℚ)
    (loc : ZipcodeLocation) (radius : ℚ) (f : ServiceFilters)
    (centers : List HealthCenter) (c : HealthCenter)
    (h : c.latitude = 0 ∨ c.longitude = 0) :
    (∀ rc ∈ handleSearch dist loc radius f centers, rc.center ≠ c) ∧
      c ∉ csvKeptCenters centers := by
  have hval : hasValidCoords c = false := by
    rcases h with h | h <;> simp [hasValidCoords, h]
  constructor
  · intro rc hrc heq
    have hvc := mem_handleSearch_valid dist loc radius f centers rc hrc
    rw [heq, hval] at hvc
    cases hvc
  · intro hmem
    unfold csvKeptCenters at hmem
    have hp := (List.mem_filter.mp hmem).2
    rcases h with h | h <;> simp [h] at hp

/-- C10 witness: an equator record (latitude exactly 0) is excluded from
search results and dropped by the loader. -/
theorem zero_coordinate_excluded_witness :
    (recZeroLat.latitude = 0 ∨ recZeroLat.longitude = 0) ∧
      (∀ rc ∈ handleSearch (constDist 1) toyLoc 3 noFilters [recZeroLat],
        rc.center ≠ recZeroLat) ∧
      recZeroLat ∉ csvKeptCenters [recZeroLat] :=
  ⟨Or.inl rfl,
    (zero_coordinate_excluded (constDist 1) toyLoc 3 noFilters [recZeroLat]
      recZeroLat (Or.inl rfl)).1,
    (zero_coordinate_excluded (constDist 1) toyLoc 3 noFilters [recZeroLat]
      recZeroLat (Or.inl rfl)).2⟩

end CHCS
